import Mathlib

/-!
Verification of the FixNow AI repair-assistant service (`src/main.py`).

The file shallowly embeds the pure logic of the service:

* a model of Python's `json.loads` over a JSON value type `JVal`
  (numbers with fractional part or exponent are kept as their
  truncation toward zero, which is what `int(...)` later computes;
  this is exact for the decimal literals the service manipulates),
* the greedy regex extraction `re.search(r'\x7b.*\x7d', text, DOTALL)`,
* the response normalization and error categorization of
  `analyze_with_openai`,
* the upload validation of `process_files` / `determine_mime_type`,
* the request validation and dispatch of the `POST /analyze` handler
  `analyze_issues`.

Effects are made explicit: the remote OpenAI call is a `RemoteOutcome`
parameter (its raw reply text, or the message of the exception it
raised), `uuid.uuid4()` is a supply `uuid : Nat → String` consumed in
call order (index 0 is the id generated at the top of
`analyze_with_openai`, index 1 the one generated inside the `except`
branch), and `datetime.now().isoformat()` is an opaque `now : String`.
Python dicts are modelled as association lists in insertion order;
`dict.get` is a last-occurrence lookup, matching how `json.loads`
resolves duplicate keys.
-/

namespace FixNow

/-- JSON values, as produced by Python's `json.loads`.  A numeric literal
with a fraction or exponent (a Python `float`) is stored via `jfloat`
holding its truncation toward zero, the value `int(x)` would produce;
this is exact for all literals whose value fits a double's integer
range, which covers every value the service handles. -/
inductive JVal where
  | jnull
  | jbool (b : Bool)
  | jnum (n : Int)
  | jfloat (trunc : Int)
  | jstr (s : String)
  | jarr (elems : List JVal)
  | jobj (fields : List (String × JVal))
deriving Repr

/-- JSON whitespace characters (the four accepted by Python's `json`). -/
def jsonWs (c : Char) : Bool :=
  [' ', '\t', '\n', '\r'].contains c

def skipWs (cs : List Char) : List Char :=
  cs.dropWhile jsonWs

/-- Opening brace character, `\x7b`. -/
def braceL : Char := Char.ofNat 123

/-- Closing brace character, `\x7d`. -/
def braceR : Char := Char.ofNat 125

/-- Value of a hexadecimal digit. -/
def hexVal (c : Char) : Option Nat :=
  if c.isDigit then some (c.toNat - 48)
  else if 'a' ≤ c && c ≤ 'f' then some (c.toNat - 87)
  else if 'A' ≤ c && c ≤ 'F' then some (c.toNat - 55)
  else none

/-- The table of single-character JSON string escapes (`\u` is handled
separately): each pair maps the character after the backslash to the
character it denotes. -/
def escTable : List (Char × Char) :=
  [('"', '"'), ('\\', '\\'), ('/', '/'), ('n', '\n'), ('t', '\t'), ('r', '\r'),
   ('b', Char.ofNat 8), ('f', Char.ofNat 12)]

/-- Single-character JSON string escapes, via `escTable`. -/
def escChar (c : Char) : Option Char :=
  escTable.lookup c

/-- Parse the body of a JSON string, after the opening quote.  Returns the
decoded characters and the remaining input.  Raw control characters are
rejected, as in strict `json.loads`. -/
def parseStringBody : List Char → Option (List Char × List Char)
  | [] => none
  | c :: cs =>
    if c == '"' then some ([], cs)
    else if c == '\\' then
      match cs with
      | [] => none
      | e :: cs2 =>
        match escChar e with
        | some ec =>
          match parseStringBody cs2 with
          | some (s, r) => some (ec :: s, r)
          | none => none
        | none =>
          if e == 'u' then
            match cs2 with
            | h1 :: h2 :: h3 :: h4 :: cs3 =>
              match hexVal h1, hexVal h2, hexVal h3, hexVal h4 with
              | some a, some b, some c', some d =>
                match parseStringBody cs3 with
                | some (s, r) =>
                  some (Char.ofNat (a * 4096 + b * 256 + c' * 16 + d) :: s, r)
                | none => none
              | _, _, _, _ => none
            | _ => none
          else none
    else if c.toNat < 32 then none
    else
      match parseStringBody cs with
      | some (s, r) => some (c :: s, r)
      | none => none

/-- Numeric value of a list of decimal digit characters. -/
def digitsVal (ds : List Char) : Nat :=
  ds.foldl (fun acc c => acc * 10 + (c.toNat - 48)) 0

/-- Parse a JSON number starting at the head of the input (which the
caller has checked begins with `-` or a digit).  Integer-syntax literals
become `jnum`; literals with a fraction or exponent become `jfloat`
holding the truncation toward zero of the denoted decimal value. -/
def parseNumber (cs : List Char) : Option (JVal × List Char) :=
  match cs with
  | '-' :: cs1 => parseNumberInt true cs1
  | cs1 => parseNumberInt false cs1
where
  parseNumberInt (neg : Bool) (cs1 : List Char) : Option (JVal × List Char) :=
    match cs1 with
    | [] => none
    | d :: r =>
      if d == '0' then
        parseNumberTail neg [d] r
      else if d.isDigit then
        parseNumberTail neg ((d :: r).takeWhile Char.isDigit)
          ((d :: r).dropWhile Char.isDigit)
      else none
  parseNumberTail (neg : Bool) (ip : List Char) (rest : List Char) :
      Option (JVal × List Char) :=
    let (frac, rest1) := match rest with
      | '.' :: r1 =>
        let fd := r1.takeWhile Char.isDigit
        if fd.isEmpty then ([], '.' :: r1) else (fd, r1.dropWhile Char.isDigit)
      | _ => ([], rest)
    let fracFailed := match rest with
      | '.' :: r1 => (r1.takeWhile Char.isDigit).isEmpty
      | _ => false
    if fracFailed then none
    else
      let (hasExp, expNeg, ed, rest2) := match rest1 with
        | 'e' :: '+' :: r2 => (true, false, r2.takeWhile Char.isDigit, r2.dropWhile Char.isDigit)
        | 'e' :: '-' :: r2 => (true, true, r2.takeWhile Char.isDigit, r2.dropWhile Char.isDigit)
        | 'e' :: r2 => (true, false, r2.takeWhile Char.isDigit, r2.dropWhile Char.isDigit)
        | 'E' :: '+' :: r2 => (true, false, r2.takeWhile Char.isDigit, r2.dropWhile Char.isDigit)
        | 'E' :: '-' :: r2 => (true, true, r2.takeWhile Char.isDigit, r2.dropWhile Char.isDigit)
        | 'E' :: r2 => (true, false, r2.takeWhile Char.isDigit, r2.dropWhile Char.isDigit)
        | _ => (false, false, [], rest1)
      if hasExp && ed.isEmpty then none
      else if frac.isEmpty && !hasExp then
        let v : Int := Int.ofNat (digitsVal ip)
        some (.jnum (if neg then -v else v), rest1)
      else
        let expVal : Int := if expNeg then -(Int.ofNat (digitsVal ed)) else Int.ofNat (digitsVal ed)
        let m : Nat := digitsVal (ip ++ frac)
        let shift : Int := expVal - Int.ofNat frac.length
        let t : Nat := if 0 ≤ shift then m * 10 ^ shift.toNat else m / 10 ^ (-shift).toNat
        let v : Int := Int.ofNat t
        some (.jfloat (if neg then -v else v), rest2)

mutual

/-- Recursive-descent JSON value parser (model of `json.loads`); `fuel`
bounds the recursion depth and is chosen large enough by `jsonParse`. -/
def parseVal : Nat → List Char → Option (JVal × List Char)
  | 0, _ => none
  | fuel + 1, cs =>
    match skipWs cs with
    | 'n' :: 'u' :: 'l' :: 'l' :: rest => some (.jnull, rest)
    | 't' :: 'r' :: 'u' :: 'e' :: rest => some (.jbool true, rest)
    | 'f' :: 'a' :: 'l' :: 's' :: 'e' :: rest => some (.jbool false, rest)
    | '"' :: rest =>
      match parseStringBody rest with
      | some (s, r) => some (.jstr ⟨s⟩, r)
      | none => none
    | '[' :: rest =>
      match parseElems fuel rest with
      | some (es, r) => some (.jarr es, r)
      | none => none
    | c :: rest =>
      if c == braceL then
        match parseFields fuel rest with
        | some (fs, r) => some (.jobj fs, r)
        | none => none
      else if c == '-' || c.isDigit then parseNumber (c :: rest)
      else none
    | [] => none

/-- Elements of a JSON array, after the opening bracket. -/
def parseElems : Nat → List Char → Option (List JVal × List Char)
  | 0, _ => none
  | fuel + 1, cs =>
    match skipWs cs with
    | ']' :: rest => some ([], rest)
    | cs' =>
      match parseVal fuel cs' with
      | some (v, r) =>
        match parseElemsRest fuel r with
        | some (es, r2) => some (v :: es, r2)
        | none => none
      | none => none

/-- Continuation of a JSON array after one parsed element. -/
def parseElemsRest : Nat → List Char → Option (List JVal × List Char)
  | 0, _ => none
  | fuel + 1, cs =>
    match skipWs cs with
    | ']' :: rest => some ([], rest)
    | ',' :: rest =>
      match parseVal fuel rest with
      | some (v, r) =>
        match parseElemsRest fuel r with
        | some (es, r2) => some (v :: es, r2)
        | none => none
      | none => none
    | _ => none

/-- Members of a JSON object, after the opening brace. -/
def parseFields : Nat → List Char → Option (List (String × JVal) × List Char)
  | 0, _ => none
  | fuel + 1, cs =>
    match skipWs cs with
    | '"' :: rest =>
      match parseStringBody rest with
      | some (k, r) =>
        match skipWs r with
        | ':' :: r2 =>
          match parseVal fuel r2 with
          | some (v, r3) =>
            match parseFieldsRest fuel r3 with
            | some (fs, r4) => some ((⟨k⟩, v) :: fs, r4)
            | none => none
          | none => none
        | _ => none
      | none => none
    | c :: rest => if c == braceR then some ([], rest) else none
    | [] => none

/-- Continuation of a JSON object after one parsed member. -/
def parseFieldsRest : Nat → List Char → Option (List (String × JVal) × List Char)
  | 0, _ => none
  | fuel + 1, cs =>
    match skipWs cs with
    | ',' :: rest =>
      match skipWs rest with
      | '"' :: r1 =>
        match parseStringBody r1 with
        | some (k, r) =>
          match skipWs r with
          | ':' :: r2 =>
            match parseVal fuel r2 with
            | some (v, r3) =>
              match parseFieldsRest fuel r3 with
              | some (fs, r4) => some ((⟨k⟩, v) :: fs, r4)
              | none => none
            | none => none
          | _ => none
        | none => none
      | _ => none
    | c :: rest => if c == braceR then some ([], rest) else none
    | [] => none

end

/-- Model of Python's `json.loads`: parse one JSON value and require that
only whitespace remains. -/
def jsonParse (cs : List Char) : Option JVal :=
  match parseVal (2 * cs.length + 8) cs with
  | some (v, rest) => if (skipWs rest).isEmpty then some v else none
  | none => none

/-! ### String helpers mirroring the Python string operations used -/

/-- `listStarts pat cs`: does `cs` start with `pat`? -/
def listStarts : List Char → List Char → Bool
  | [], _ => true
  | _ :: _, [] => false
  | p :: ps, c :: cs => p == c && listStarts ps cs

/-- `listHas pat cs`: does `pat` occur as a contiguous run inside `cs`?
Model of Python's `pat in s`. -/
def listHas (pat : List Char) : List Char → Bool
  | [] => pat.isEmpty
  | c :: cs => listStarts pat (c :: cs) || listHas pat cs

/-- `strStarts s p`: model of Python's `s.startswith(p)`. -/
def strStarts (s p : String) : Bool := listStarts p.data s.data

/-- Model of Python's `pat in s` on strings. -/
def strHas (s pat : String) : Bool := listHas pat.data s.data

/-- Model of Python's `str.lower()` (exact on ASCII, which is all the
service compares). -/
def pyLower (s : String) : String := ⟨s.data.map Char.toLower⟩

/-- Model of Python's `str.strip()` with no argument (exact on the ASCII
whitespace the service sees). -/
def pyStrip (s : String) : String :=
  ⟨((s.data.dropWhile Char.isWhitespace).reverse.dropWhile Char.isWhitespace).reverse⟩

/-- First maximal run of decimal digits in a string, as a number: model of
`re.findall(r'\d+', s)` followed by `int` on the first element. -/
def firstDigitRun : List Char → Option Nat
  | [] => none
  | c :: cs =>
    if c.isDigit then some (digitsVal ((c :: cs).takeWhile Char.isDigit))
    else firstDigitRun cs

/-! ### Python dict model -/

/-- A Python dict, in insertion order.  The dicts the service builds have
pairwise distinct keys; dicts produced by `json.loads` may record a key
twice, and lookups then see the last occurrence, as in Python. -/
abbrev PyDict := List (String × JVal)

/-- Last-occurrence lookup: the value `dict[k]` holds after all insertions. -/
def dictFind (d : PyDict) (k : String) : Option JVal :=
  d.reverse.lookup k

/-- Model of Python's `dict.get(k, default)`. -/
def pyGet (d : PyDict) (k : String) (default : JVal) : JVal :=
  (dictFind d k).getD default

/-- Model of Python's `d[k] = v`: overwrite in place, or append. -/
def dictSet (d : PyDict) (k : String) (v : JVal) : PyDict :=
  if (d.lookup k).isSome then d.map (fun p => if p.1 == k then (k, v) else p)
  else d ++ [(k, v)]

/-- Python truthiness of a JSON value (`jfloat` is judged by its stored
truncation; the service only ever tests `jbool` values). -/
def pyTruthy : JVal → Bool
  | .jnull => false
  | .jbool b => b
  | .jnum n => n != 0
  | .jfloat t => t != 0
  | .jstr s => !s.data.isEmpty
  | .jarr es => !es.isEmpty
  | .jobj fs => !fs.isEmpty

/-! ### Response normalization (`analyze_with_openai`, src/main.py lines 155-251) -/

/-- Model of `re.search(r'\x7b.*\x7d', result_text, re.DOTALL)`: the
leftmost-then-greedy match runs from the first opening brace to the last
closing brace, provided the latter comes later. -/
def greedyBraceMatch (cs : List Char) : Option (List Char) :=
  match cs.findIdx? (fun c => c == braceL), cs.reverse.findIdx? (fun c => c == braceR) with
  | some i, some r =>
    let j := cs.length - 1 - r
    if i < j then some ((cs.drop i).take (j - i + 1)) else none
  | _, _ => none

/-- The structured fallback object built at src/main.py lines 168-174 when
no brace match exists and the whole reply fails to parse. -/
def fallbackFields : PyDict :=
  [("detected_issue", .jstr "Analysis Error"),
   ("severity", .jstr "Medium Severity"),
   ("description", .jstr "Unable to parse AI response. Please try again with clearer information."),
   ("estimated_price", .jobj [("low", .jnum 0), ("high", .jnum 0)]),
   ("confidence", .jnum 0)]

/-- Stand-in for the message of the `json.JSONDecodeError` raised by the
unguarded `json.loads(json_match.group())` at src/main.py line 161.  The
real message ("Expecting value: ...") contains neither "rate_limit" nor
"invalid_api_key", which is all the categorization inspects. -/
def jsonDecodeErrMsg : String := "Expecting value"

/-- Stand-in for the `AttributeError` message raised by
`analysis_result.get(...)` at line 177 when `json.loads` returned a
non-dict; likewise free of the category keywords. -/
def attributeErrMsg : String := "object has no attribute get"

/-- Lines 158-174: locate JSON in the reply.  A brace match that fails to
parse raises (`Except.error`) out of the local `if`; only the
whole-text parse attempt is guarded by `try`/`except`, whose handler
substitutes `fallbackFields`.  A successful parse of a non-object is
returned as-is and only trips the `.get` call later. -/
def extractJson (result_text : List Char) : Except String JVal :=
  match greedyBraceMatch result_text with
  | some m =>
    match jsonParse m with
    | some v => .ok v
    | none => .error jsonDecodeErrMsg
  | none =>
    match jsonParse result_text with
    | some v => .ok v
    | none => .ok (.jobj fallbackFields)

/-- Lines 176-191: extract and normalize the confidence score from the
parsed object.  A Python `bool` is an `int`, hence numeric (1 or 0); a
`float` is truncated by `int(...)`. -/
def normalizeConfidence (fields : PyDict) : Int :=
  let c := pyGet fields "confidence" (.jnum 0)
  let c1 : Int :=
    match c with
    | .jstr s =>
      match firstDigitRun s.data with
      | some n => Int.ofNat n
      | none => 50
    | .jnum n => n
    | .jfloat t => t
    | .jbool b => if b then 1 else 0
    | _ => 50
  max 0 (min 100 c1)

/-- `user_description is not None and len(user_description.strip()) > 0`. -/
def hasDescB : Option String → Bool
  | some d => !(pyStrip d).data.isEmpty
  | none => false

/-- Lines 194-206: the success envelope built around the parsed object. -/
def successResp (fields : PyDict) (user_id : String)
    (user_description : Option String) (images_len : Nat)
    (uuid : Nat → String) (now : String) : PyDict :=
  [("user_id", .jstr user_id),
   ("detected_issue", pyGet fields "detected_issue" (.jstr "Unknown Issue")),
   ("severity", pyGet fields "severity" (.jstr "Medium Severity")),
   ("description", pyGet fields "description" (.jstr "No description provided")),
   ("estimated_price", pyGet fields "estimated_price" (.jobj [("low", .jnum 0), ("high", .jnum 0)])),
   ("accuracy", .jnum (normalizeConfidence fields)),
   ("success", .jbool true),
   ("request_id", .jstr (uuid 0)),
   ("analysis_timestamp", .jstr now),
   ("images_analyzed", .jnum images_len),
   ("has_user_description", .jbool (hasDescB user_description))]

/-- Lines 210-251: the `except` handler.  The failure message is
lowercased and searched for category keywords; a fresh request id
(`uuid 1`, the second `uuid.uuid4()` call of the attempt) is generated. -/
def errorResp (user_id msg : String) (uuid : Nat → String) : PyDict :=
  if strHas (pyLower msg) "rate_limit" then
    [("user_id", .jstr user_id),
     ("detected_issue", .jstr "Service Error"),
     ("severity", .jstr "Low Severity"),
     ("description", .jstr "Rate limit exceeded. Please try again later."),
     ("estimated_price", .jobj [("low", .jnum 0), ("high", .jnum 0)]),
     ("accuracy", .jnum 0),
     ("request_id", .jstr (uuid 1)),
     ("success", .jbool false),
     ("error_message", .jstr "Rate limit exceeded")]
  else if strHas (pyLower msg) "invalid_api_key" then
    [("user_id", .jstr user_id),
     ("detected_issue", .jstr "Service Error"),
     ("severity", .jstr "Low Severity"),
     ("description", .jstr "Server configuration issue. Please contact support."),
     ("estimated_price", .jobj [("low", .jnum 0), ("high", .jnum 0)]),
     ("accuracy", .jnum 0),
     ("request_id", .jstr (uuid 1)),
     ("success", .jbool false),
     ("error_message", .jstr "Authentication error")]
  else
    [("user_id", .jstr user_id),
     ("detected_issue", .jstr "Analysis Failed"),
     ("severity", .jstr "Low Severity"),
     ("description", .jstr ("AI analysis failed: " ++ msg)),
     ("estimated_price", .jobj [("low", .jnum 0), ("high", .jnum 0)]),
     ("accuracy", .jnum 0),
     ("request_id", .jstr (uuid 1)),
     ("success", .jbool false),
     ("error_message", .jstr msg)]

/-- Outcome of the one remote OpenAI call made inside the `try` block:
either the raw text of the model's reply, or the message of the
exception the client raised. -/
inductive RemoteOutcome where
  | reply (text : String)
  | exn (msg : String)

/-- src/main.py lines 77-251, `analyze_with_openai`.  `uuid 0` is the
request id generated at line 87; parsing a brace match that is not JSON,
or a whole-text parse to a non-dict, raises into the same `except`
handler as a remote failure. -/
def analyze_with_openai (images_data : List (List Nat × String))
    (user_id : String) (user_description : Option String)
    (outcome : RemoteOutcome) (uuid : Nat → String) (now : String) : PyDict :=
  match outcome with
  | .exn msg => errorResp user_id msg uuid
  | .reply text =>
    match extractJson text.data with
    | .ok (.jobj fields) =>
      successResp fields user_id user_description images_data.length uuid now
    | .ok _ => errorResp user_id attributeErrMsg uuid
    | .error m => errorResp user_id m uuid

/-! ### Upload validation (`process_files`, `determine_mime_type`,
src/main.py lines 253-324) -/

/-- An uploaded file as the framework hands it over: a declared filename
and content-type (each possibly absent) and the raw bytes. -/
structure RawFile where
  filename : Option String
  content_type : Option String
  content : List Nat
deriving Repr, DecidableEq

/-- An accepted file after processing (lines 286-291). -/
structure ProcFile where
  filename : Option String
  content : List Nat
  mime_type : String
  size_bytes : Nat
deriving Repr, DecidableEq

/-- A per-file rejection entry (lines 266-279). -/
structure FileErr where
  filename : Option String
  error : String
deriving Repr, DecidableEq

/-- Round `a / b` to the nearest integer, ties to even — how Python's
`f"...:.2f"` rounds.  `len(contents)/1024/1024` is two exact divisions
by powers of two, so the double holds the exact rational and the
formatted string is the correctly rounded decimal. -/
def roundHalfEvenDiv (a b : Nat) : Nat :=
  let q := a / b
  let r := a % b
  if 2 * r < b then q
  else if 2 * r > b then q + 1
  else if q % 2 == 0 then q else q + 1

/-- `f"\x7blen(contents)/1024/1024:.2f\x7d"`: the byte count in MiB with
exactly two digits after the decimal point. -/
def fmtMB (n : Nat) : String :=
  let h := roundHalfEvenDiv (n * 100) (1024 * 1024)
  Nat.repr (h / 100) ++ "." ++
    (if h % 100 < 10 then "0" ++ Nat.repr (h % 100) else Nat.repr (h % 100))

/-- Line 283: `os.path.splitext(...)[1]`, the part after the last dot of
the final path component — empty when the only dots lead the component. -/
def splitextExt (cs : List Char) : List Char :=
  let base := cs.foldl (fun acc c => if c == '/' then [] else acc.concat c) []
  match base.reverse.findIdx? (fun c => c == '.') with
  | none => []
  | some r =>
    let d := base.length - 1 - r
    if (base.take d).any (fun c => c != '.') then base.drop d else []

/-- Line 283: `os.path.splitext(file.filename.lower())[1] if file.filename
else ''`. -/
def fileExt (filename : Option String) : String :=
  match filename with
  | none => ""
  | some fn => if fn.data.isEmpty then "" else ⟨splitextExt (fn.data.map Char.toLower)⟩

/-- Lines 312-322: the fixed extension table. -/
def extension_mapping : List (String × String) :=
  [(".jpg", "image/jpeg"),
   (".jpeg", "image/jpeg"),
   (".png", "image/png"),
   (".webp", "image/webp"),
   (".gif", "image/gif"),
   (".bmp", "image/bmp"),
   (".tiff", "image/tiff"),
   (".tif", "image/tiff"),
   (".svg", "image/svg+xml")]

/-- Lines 304-324, `determine_mime_type`.  The declared content-type wins
when it is truthy (non-empty) and starts with `image/`; otherwise the
extension is looked up in the table, defaulting to `image/jpeg`. -/
def determine_mime_type (content_type : Option String) (file_extension : String) : String :=
  match content_type with
  | some ct =>
    if !ct.data.isEmpty && strStarts ct "image/" then ct
    else (extension_mapping.lookup file_extension).getD "image/jpeg"
  | none => (extension_mapping.lookup file_extension).getD "image/jpeg"

/-- Lines 253-302, `process_files`: split the uploads into accepted files
and rejections, preserving order in each output.  Reads of in-memory
uploads do not fail, so the `except` arm at lines 293-297 is
unreachable in the model. -/
def process_files : List RawFile → List ProcFile × List FileErr
  | [] => ([], [])
  | f :: rest =>
    let pr := process_files rest
    if f.content.isEmpty then
      (pr.1, ⟨f.filename, "File is empty"⟩ :: pr.2)
    else if f.content.length > 20 * 1024 * 1024 then
      (pr.1, ⟨f.filename, "File too large (" ++ fmtMB f.content.length ++ "MB)"⟩ :: pr.2)
    else
      (⟨f.filename, f.content,
        determine_mime_type f.content_type (fileExt f.filename),
        f.content.length⟩ :: pr.1, pr.2)

/-! ### The `POST /analyze` handler (`analyze_issues`, src/main.py
lines 375-485) -/

/-- Lines 326-332, `validate_description`. -/
def validate_description : Option String → Bool
  | none => true
  | some d => d.length ≤ 2000

/-- `files is not None and len(files) > 0` (line 417). -/
def hasImagesB : Option (List RawFile) → Bool
  | some fs => !fs.isEmpty
  | none => false

/-- The JSON body the handler answers with: either the `detail` dict of a
raised `HTTPException`, or the envelope dict from
`analyze_with_openai`. -/
inductive HandlerBody where
  | detail (error : String) (message : String) (field : Option String) (fileErrors : List FileErr)
  | envelope (resp : PyDict)
deriving Repr

/-- What one call of the handler produces: the HTTP status code, the
body, and how many times the remote diagnostic client was invoked. -/
structure HandlerOut where
  status : Nat
  body : HandlerBody
  remote_calls : Nat
deriving Repr

/-- Lines 432-463: the `if has_images:` block — reject a batch of more
than 10 files, process the files, reject if any rejection occurred,
else collect `(content, mime_type)` payloads for the remote call. -/
def imageStep (fs : List RawFile) : Except HandlerOut (List (List Nat × String)) :=
  if fs.length > 10 then
    .error ⟨400, .detail "Validation error" "Too many images. Maximum 10 images allowed." none [], 0⟩
  else if !(process_files fs).2.isEmpty then
    .error ⟨400, .detail "File processing error"
      ("Failed to process " ++ toString (process_files fs).2.length ++ " file(s)")
      none (process_files fs).2, 0⟩
  else
    .ok ((process_files fs).1.map (fun p => (p.content, p.mime_type)))

/-- Lines 465-485: call `analyze_with_openai`, add
`images_analyzed_count` to its envelope (line 473), and answer 200 when
the envelope's `success` entry is truthy, 500 otherwise.  Reaching this
phase is the one remote invocation of the request. -/
def finishPhase (images_data : List (List Nat × String)) (user_id : String)
    (description : Option String) (outcome : RemoteOutcome)
    (uuid : Nat → String) (now : String) : HandlerOut :=
  let result :=
    dictSet
      (analyze_with_openai images_data user_id
        (if hasDescB description then description else none) outcome uuid now)
      "images_analyzed_count" (.jnum images_data.length)
  if pyTruthy (pyGet result "success" (.jbool false)) then
    ⟨200, .envelope result, 1⟩
  else
    ⟨500, .envelope result, 1⟩

/-- Lines 375-485, `analyze_issues`.  Raised `HTTPException`s are modelled
by early returns carrying status 400 and the `detail` dict; the
remaining work is `imageStep` (the `if has_images:` block) followed by
`finishPhase` (the remote call and response selection). -/
def analyze_issues (user_id : String) (description : Option String)
    (files : Option (List RawFile)) (outcome : RemoteOutcome)
    (uuid : Nat → String) (now : String) : HandlerOut :=
  if user_id.data.isEmpty || (pyStrip user_id).data.isEmpty then
    ⟨400, .detail "Validation error" "user_id is required and cannot be empty" (some "user_id") [], 0⟩
  else if !validate_description description then
    ⟨400, .detail "Validation error" "Description too long. Maximum 2000 characters allowed." (some "description") [], 0⟩
  else if !hasImagesB files && !hasDescB description then
    ⟨400, .detail "Validation error" "At least one input is required: either images or description" none [], 0⟩
  else
    match (if hasImagesB files then imageStep (files.getD []) else Except.ok []) with
    | .error out => out
    | .ok images_data => finishPhase images_data user_id description outcome uuid now

/-! ### Observation helpers used by the statements -/

/-- The value stored under `k` in the returned envelope (`none` when the
response is an `HTTPException` detail instead). -/
def envField (out : HandlerOut) (k : String) : Option JVal :=
  match out.body with
  | .envelope r => some (pyGet r k .jnull)
  | .detail .. => none

/-- Does the returned envelope carry key `k` at all? -/
def envHasKey (out : HandlerOut) (k : String) : Bool :=
  match out.body with
  | .envelope r => r.any (fun p => p.1 == k)
  | .detail .. => false

/-- The validation guards that let a request through to the remote call:
non-blank user id, description within bounds, at least one input, and —
when images are present — at most 10 files, all accepted. -/
def reachesRemote (user_id : String) (description : Option String)
    (files : Option (List RawFile)) : Prop :=
  (user_id.data.isEmpty || (pyStrip user_id).data.isEmpty) = false ∧
  validate_description description = true ∧
  (!hasImagesB files && !hasDescB description) = false ∧
  (hasImagesB files = true →
    (files.getD []).length ≤ 10 ∧ (process_files (files.getD [])).2 = [])

/-! ### Spec-side definition for the MIME refinement claim -/

/-- The fixed extension table as §4.1 of the spec words it:
`.jpg/.jpeg→image/jpeg`, `.png→image/png`, `.webp→image/webp`,
`.gif→image/gif`, `.bmp→image/bmp`, `.tiff/.tif→image/tiff`,
`.svg→image/svg+xml`, unknown extension defaults to `image/jpeg`.
Written from the spec's words, to be compared with
`determine_mime_type`, which is translated from the source. -/
def specMimeTable (ext : String) : String :=
  if ext = ".jpg" then "image/jpeg"
  else if ext = ".jpeg" then "image/jpeg"
  else if ext = ".png" then "image/png"
  else if ext = ".webp" then "image/webp"
  else if ext = ".gif" then "image/gif"
  else if ext = ".bmp" then "image/bmp"
  else if ext = ".tiff" then "image/tiff"
  else if ext = ".tif" then "image/tiff"
  else if ext = ".svg" then "image/svg+xml"
  else "image/jpeg"

/-- MIME resolution as the spec words it: declared content-type verbatim
when it starts with `image/`, otherwise the fixed table on the
extension.  Written from the spec's words. -/
def specMimeResolution (content_type : Option String) (ext : String) : String :=
  match content_type with
  | some ct => if strStarts ct "image/" then ct else specMimeTable ext
  | none => specMimeTable ext

/-! ### Helper lemmas -/

theorem lookup_extension_eq (ext : String) :
    (extension_mapping.lookup ext).getD "image/jpeg" = specMimeTable ext := by
  by_cases h1 : ext = ".jpg"
  · subst h1; rfl
  by_cases h2 : ext = ".jpeg"
  · subst h2; rfl
  by_cases h3 : ext = ".png"
  · subst h3; rfl
  by_cases h4 : ext = ".webp"
  · subst h4; rfl
  by_cases h5 : ext = ".gif"
  · subst h5; rfl
  by_cases h6 : ext = ".bmp"
  · subst h6; rfl
  by_cases h7 : ext = ".tiff"
  · subst h7; rfl
  by_cases h8 : ext = ".tif"
  · subst h8; rfl
  by_cases h9 : ext = ".svg"
  · subst h9; rfl
  have b1 : (ext == ".jpg") = false := beq_eq_false_iff_ne.mpr h1
  have b2 : (ext == ".jpeg") = false := beq_eq_false_iff_ne.mpr h2
  have b3 : (ext == ".png") = false := beq_eq_false_iff_ne.mpr h3
  have b4 : (ext == ".webp") = false := beq_eq_false_iff_ne.mpr h4
  have b5 : (ext == ".gif") = false := beq_eq_false_iff_ne.mpr h5
  have b6 : (ext == ".bmp") = false := beq_eq_false_iff_ne.mpr h6
  have b7 : (ext == ".tiff") = false := beq_eq_false_iff_ne.mpr h7
  have b8 : (ext == ".tif") = false := beq_eq_false_iff_ne.mpr h8
  have b9 : (ext == ".svg") = false := beq_eq_false_iff_ne.mpr h9
  simp [extension_mapping, List.lookup, specMimeTable,
    b1, b2, b3, b4, b5, b6, b7, b8, b9, h1, h2, h3, h4, h5, h6, h7, h8, h9]

theorem specMimeTable_image (ext : String) :
    strStarts (specMimeTable ext) "image/" = true := by
  unfold specMimeTable
  repeat' split
  all_goals rfl

theorem strStarts_empty_false (c : String) (hc : c.data = []) :
    strStarts c "image/" = false := by
  unfold strStarts
  rw [hc]
  rfl

/-! ### C8 and C10: MIME type resolution -/

/-- Shared computation: `determine_mime_type` agrees with the spec-side
resolution rule everywhere. -/
theorem determine_mime_type_eq_spec (content_type : Option String) (ext : String) :
    determine_mime_type content_type ext = specMimeResolution content_type ext := by
  cases content_type with
  | none => simpa [determine_mime_type, specMimeResolution] using lookup_extension_eq ext
  | some c =>
    by_cases hs : strStarts c "image/" = true
    · have hne : c.data.isEmpty = false := by
        cases hd : c.data with
        | nil => rw [strStarts_empty_false c hd] at hs; cases hs
        | cons a t => rfl
      simp [determine_mime_type, specMimeResolution, hs, hne]
    · have hs' : strStarts c "image/" = false := by
        cases h : strStarts c "image/"
        · rfl
        · exact absurd h hs
      simp [determine_mime_type, specMimeResolution, hs', lookup_extension_eq ext]

/-- C8: for every (declared content-type, lowercased filename extension)
pair, the resolved MIME type equals the declared content-type when it
starts with `image/`, and otherwise is the image type the fixed table
maps the extension to, with unknown extensions resolving to
`image/jpeg` — i.e. `determine_mime_type` refines the spec's resolution
rule. -/
theorem mime_resolution_follows_spec (content_type : Option String) (ext : String) :
    determine_mime_type content_type ext = specMimeResolution content_type ext :=
  determine_mime_type_eq_spec content_type ext

/-- C10: MIME resolution is total and always yields a string starting
with `image/`, for every declared content-type (present, empty or
missing) and every extension — no upload is forwarded with a non-image
MIME type. -/
theorem mime_resolution_always_image (content_type : Option String) (ext : String) :
    strStarts (determine_mime_type content_type ext) "image/" = true := by
  rw [determine_mime_type_eq_spec]
  cases content_type with
  | none => exact specMimeTable_image ext
  | some c =>
    by_cases hs : strStarts c "image/" = true
    · simp [specMimeResolution, hs]
    · have hs' : strStarts c "image/" = false := by
        cases h : strStarts c "image/"
        · rfl
        · exact absurd h hs
      simpa [specMimeResolution, hs'] using specMimeTable_image ext

/-! ### C2: confidence normalization -/

/-- Numeric in Python's sense (`isinstance(x, (int, float))`): integers,
floats, and booleans, since `bool` subclasses `int`. -/
def isNumericPy : JVal → Bool
  | .jnum _ => true
  | .jfloat _ => true
  | .jbool _ => true
  | _ => false

/-- Is the value a Python string? -/
def isStrPy : JVal → Bool
  | .jstr _ => true
  | _ => false

/-- C2: the normalized confidence is the key's (integer) value clamped
when present and numeric; `0` when the key is absent; the first run of
digits, clamped, when the value is a string containing digits (e.g.
`"about 72 percent"` parses to `72`); `50` for a digit-free string or a
value that is neither numeric nor a string; and clamping sends `150` to
`100` and `-5` to `0`. -/
theorem confidence_normalization :
    (∀ fields n, dictFind fields "confidence" = some (.jnum n) →
       normalizeConfidence fields = max 0 (min 100 n)) ∧
    (∀ fields, dictFind fields "confidence" = none →
       normalizeConfidence fields = 0) ∧
    (∀ fields s n, dictFind fields "confidence" = some (.jstr s) →
       firstDigitRun s.data = some n →
       normalizeConfidence fields = max 0 (min 100 (Int.ofNat n))) ∧
    (∀ fields s, dictFind fields "confidence" = some (.jstr s) →
       firstDigitRun s.data = none →
       normalizeConfidence fields = 50) ∧
    (∀ fields v, dictFind fields "confidence" = some v →
       isNumericPy v = false → isStrPy v = false →
       normalizeConfidence fields = 50) ∧
    normalizeConfidence [("confidence", .jnum 150)] = 100 ∧
    normalizeConfidence [("confidence", .jnum (-5))] = 0 ∧
    firstDigitRun ("about 72 percent").data = some 72 := by
  refine ⟨?_, ?_, ?_, ?_, ?_, by decide, by decide, by decide⟩
  · intro fields n h
    simp [normalizeConfidence, pyGet, h]
  · intro fields h
    simp [normalizeConfidence, pyGet, h]
  · intro fields s n h hd
    simp [normalizeConfidence, pyGet, h, hd]
  · intro fields s h hd
    simp [normalizeConfidence, pyGet, h, hd]
  · intro fields v h hnum hstr
    cases v <;> simp_all [normalizeConfidence, pyGet, isNumericPy, isStrPy]

/-- Witness for C2 at a concrete input: the string `"about 72 percent"`
normalizes to confidence 72. -/
theorem confidence_normalization_witness :
    normalizeConfidence [("confidence", JVal.jstr "about 72 percent")] = 72 := by
  have h := confidence_normalization.2.2.1
    [("confidence", JVal.jstr "about 72 percent")] "about 72 percent" 72 rfl rfl
  rw [h]
  decide

/-! ### C1: the parse-fallback path -/

/-- C1 (counterexample): for the reply `\x7boops\x7d`, the brace match is
the whole text and neither it nor the whole text parses as JSON, yet
the normalization step does not return the fallback object — the parse
error escapes to the generic failure branch, so the envelope reports
`detected_issue = "Analysis Failed"` rather than `"Analysis Error"`. -/
theorem parse_fallback_counterexample :
    greedyBraceMatch ("\x7boops\x7d").data = some ("\x7boops\x7d").data ∧
    jsonParse ("\x7boops\x7d").data = none ∧
    extractJson ("\x7boops\x7d").data = Except.error jsonDecodeErrMsg ∧
    extractJson ("\x7boops\x7d").data ≠ Except.ok (JVal.jobj fallbackFields) ∧
    pyGet (analyze_with_openai [] "u" none (.reply "\x7boops\x7d")
      (fun n => toString n) "t") "detected_issue" .jnull = JVal.jstr "Analysis Failed" := by
  refine ⟨rfl, rfl, rfl, ?_, rfl⟩
  intro h
  rw [show extractJson ("\x7boops\x7d").data = Except.error jsonDecodeErrMsg from rfl] at h
  exact Except.noConfusion h

/-- C1 (amended): the fixed fallback result is returned exactly when the
reply contains no `\x7b...\x7d` match at all and the entire reply fails
to parse as JSON; when a `\x7b...\x7d` match exists but fails to parse,
the parse error propagates out of the normalization step to the generic
failure branch instead. -/
theorem parse_fallback_amended (text : List Char) :
    (greedyBraceMatch text = none → jsonParse text = none →
       extractJson text = Except.ok (JVal.jobj fallbackFields)) ∧
    (∀ m, greedyBraceMatch text = some m → jsonParse m = none →
       extractJson text = Except.error jsonDecodeErrMsg) := by
  constructor
  · intro h1 h2
    simp [extractJson, h1, h2]
  · intro m h1 h2
    simp [extractJson, h1, h2]

/-- Witness for the amended C1: the digit-free, brace-free reply
`"hello"` produces the fallback object. -/
theorem parse_fallback_amended_witness :
    extractJson ("hello").data = Except.ok (JVal.jobj fallbackFields) :=
  (parse_fallback_amended ("hello").data).1 rfl rfl

/-! ### C7: upload size rules -/

theorem repr_len_one : ∀ m, m < 10 → (Nat.repr m).length = 1 := by decide

theorem repr_len_two : ∀ m, m < 100 → 10 ≤ m → (Nat.repr m).length = 2 := by decide

/-- C7: in any batch of uploads, a 0-byte file is rejected with reason
`"File is empty"`; a file strictly over 20×1024×1024 bytes is rejected
with a reason embedding its size in MiB formatted to exactly two decimal
places (in particular 20×1024×1024+1 bytes formats as `20.00`); and a
file of exactly 20×1024×1024 bytes is accepted. -/
theorem upload_size_rules :
    (∀ fs f, f ∈ fs → f.content = [] →
       (⟨f.filename, "File is empty"⟩ : FileErr) ∈ (process_files fs).2) ∧
    (∀ fs f, f ∈ fs → f.content.length > 20 * 1024 * 1024 →
       (⟨f.filename, "File too large (" ++ fmtMB f.content.length ++ "MB)"⟩ : FileErr) ∈
         (process_files fs).2) ∧
    (∀ fs f, f ∈ fs → f.content.length = 20 * 1024 * 1024 →
       ∃ p ∈ (process_files fs).1,
         p.filename = f.filename ∧ p.content = f.content ∧
         p.size_bytes = 20 * 1024 * 1024) ∧
    fmtMB (20 * 1024 * 1024 + 1) = "20.00" ∧
    (∀ n, ∃ a b, fmtMB n = a ++ "." ++ b ∧ b.length = 2) := by
  refine ⟨?_, ?_, ?_, by decide, ?_⟩
  · intro fs f
    induction fs with
    | nil => intro hmem; cases hmem
    | cons g gs ih =>
      intro hmem hemp
      rcases List.mem_cons.mp hmem with hg | hgs
      · subst hg
        simp [process_files, hemp]
      · have := ih hgs hemp
        by_cases h1 : g.content.isEmpty <;>
          by_cases h2 : g.content.length > 20 * 1024 * 1024 <;>
            simp [process_files, h1, h2, this]
  · intro fs f
    induction fs with
    | nil => intro hmem; cases hmem
    | cons g gs ih =>
      intro hmem hbig
      rcases List.mem_cons.mp hmem with hg | hgs
      · subst hg
        have hne : f.content.isEmpty = false := by
          cases fc : f.content with
          | nil => rw [fc] at hbig; simp at hbig
          | cons a t => rfl
        simp [process_files, hne, hbig]
      · have := ih hgs hbig
        by_cases h1 : g.content.isEmpty <;>
          by_cases h2 : g.content.length > 20 * 1024 * 1024 <;>
            simp [process_files, h1, h2, this]
  · intro fs f
    induction fs with
    | nil => intro hmem; cases hmem
    | cons g gs ih =>
      intro hmem hsz
      rcases List.mem_cons.mp hmem with hg | hgs
      · subst hg
        have hne : f.content.isEmpty = false := by
          cases fc : f.content with
          | nil => rw [fc] at hsz; simp at hsz
          | cons a t => rfl
        have hnb : ¬ (f.content.length > 20 * 1024 * 1024) := by omega
        refine ⟨⟨f.filename, f.content,
          determine_mime_type f.content_type (fileExt f.filename), f.content.length⟩,
          ?_, rfl, rfl, hsz⟩
        simp [process_files, hne, hnb]
      · obtain ⟨p, hp, h1, h2, h3⟩ := ih hgs hsz
        refine ⟨p, ?_, h1, h2, h3⟩
        by_cases hb1 : g.content.isEmpty <;>
          by_cases hb2 : g.content.length > 20 * 1024 * 1024 <;>
            simp [process_files, hb1, hb2, hp]
  · intro n
    by_cases hlt : roundHalfEvenDiv (n * 100) (1024 * 1024) % 100 < 10
    · refine ⟨Nat.repr (roundHalfEvenDiv (n * 100) (1024 * 1024) / 100),
        "0" ++ Nat.repr (roundHalfEvenDiv (n * 100) (1024 * 1024) % 100), ?_, ?_⟩
      · simp [fmtMB, hlt]
      · rw [String.length_append]
        rw [repr_len_one _ hlt]
        rfl
    · refine ⟨Nat.repr (roundHalfEvenDiv (n * 100) (1024 * 1024) / 100),
        Nat.repr (roundHalfEvenDiv (n * 100) (1024 * 1024) % 100), ?_, ?_⟩
      · simp [fmtMB, hlt]
      · exact repr_len_two _ (Nat.mod_lt _ (by omega)) (by omega)

/-- Witness for C7 at concrete inputs: an empty upload named `a.png` is
rejected with `"File is empty"`, and a 20×1024×1024+1-byte upload is
rejected with the `20.00`-MiB reason. -/
theorem upload_size_rules_witness :
    (⟨some "a.png", "File is empty"⟩ : FileErr) ∈
      (process_files [⟨some "a.png", none, []⟩]).2 ∧
    (⟨some "b.png", "File too large (" ++ fmtMB (List.replicate (20 * 1024 * 1024 + 1) 0).length ++ "MB)"⟩ : FileErr) ∈
      (process_files [⟨some "b.png", none, List.replicate (20 * 1024 * 1024 + 1) 0⟩]).2 := by
  constructor
  · exact upload_size_rules.1 [⟨some "a.png", none, []⟩] ⟨some "a.png", none, []⟩
      (by simp) rfl
  · exact upload_size_rules.2.1 [⟨some "b.png", none, List.replicate (20 * 1024 * 1024 + 1) 0⟩]
      ⟨some "b.png", none, List.replicate (20 * 1024 * 1024 + 1) 0⟩
      (List.mem_singleton.mpr rfl)
      (by rw [List.length_replicate]; omega)

/-! ### Handler reduction lemmas -/

/-- The image payload forwarded to the remote call once validation and
upload processing have passed. -/
def imagesOf (files : Option (List RawFile)) : List (List Nat × String) :=
  if hasImagesB files then
    (process_files (files.getD [])).1.map (fun p => (p.content, p.mime_type))
  else []

theorem imageStep_ok_of (fs : List RawFile) (hlen : fs.length ≤ 10)
    (herr : (process_files fs).2 = []) :
    imageStep fs = .ok ((process_files fs).1.map (fun p => (p.content, p.mime_type))) := by
  unfold imageStep
  rw [if_neg (by omega), herr]
  rfl

theorem imageStep_error_shape (fs : List RawFile) (out : HandlerOut)
    (h : imageStep fs = .error out) :
    ∃ e m fl fe, out = ⟨400, .detail e m fl fe, 0⟩ := by
  unfold imageStep at h
  split at h
  · exact ⟨_, _, _, _, (Except.error.injEq _ _).mp h |>.symm⟩
  · split at h
    · exact ⟨_, _, _, _, (Except.error.injEq _ _).mp h |>.symm⟩
    · cases h

theorem imageStep_ok_inv (fs : List RawFile) (imgs : List (List Nat × String))
    (h : imageStep fs = .ok imgs) :
    fs.length ≤ 10 ∧ (process_files fs).2 = [] := by
  unfold imageStep at h
  split at h
  · cases h
  next hlen =>
    split at h
    · cases h
    next herr =>
      refine ⟨by omega, ?_⟩
      simpa using herr

/-- Under the validation guards the handler runs the remote phase on the
processed images. -/
theorem analyze_issues_reaches (user_id : String) (description : Option String)
    (files : Option (List RawFile)) (outcome : RemoteOutcome)
    (uuid : Nat → String) (now : String)
    (h : reachesRemote user_id description files) :
    analyze_issues user_id description files outcome uuid now =
      finishPhase (imagesOf files) user_id description outcome uuid now := by
  obtain ⟨h1, h2, h3, h4⟩ := h
  by_cases hi : hasImagesB files = true
  · obtain ⟨hlen, herr⟩ := h4 hi
    simp [analyze_issues, imagesOf, h1, h2, h3, hi, imageStep_ok_of _ hlen herr]
  · have hi' : hasImagesB files = false := by
      cases h : hasImagesB files
      · rfl
      · exact absurd h hi
    have hd : hasDescB description = true := by
      rw [hi'] at h3
      simpa using h3
    simp [analyze_issues, imagesOf, h1, h2, h3, hi', hd]

/-- Every handler run either rejects with a 400 detail and zero remote
calls, or every validation guard held. -/
theorem analyze_issues_cases (user_id : String) (description : Option String)
    (files : Option (List RawFile)) (outcome : RemoteOutcome)
    (uuid : Nat → String) (now : String) :
    (∃ e m fl fe, analyze_issues user_id description files outcome uuid now =
        ⟨400, .detail e m fl fe, 0⟩) ∨
    ((pyStrip user_id).data.isEmpty = false ∧
     validate_description description = true ∧
     (hasImagesB files = true ∨ hasDescB description = true) ∧
     (∀ fs, files = some fs → fs.length ≤ 10) ∧
     (hasImagesB files = true → (process_files (files.getD [])).2 = [])) := by
  unfold analyze_issues
  split
  · exact .inl ⟨_, _, _, _, rfl⟩
  next h1 =>
    split
    · exact .inl ⟨_, _, _, _, rfl⟩
    next h2 =>
      split
      · exact .inl ⟨_, _, _, _, rfl⟩
      next h3 =>
        have h1' : (user_id.data.isEmpty || (pyStrip user_id).data.isEmpty) = false :=
          Bool.eq_false_iff.mpr h1
        have hu : (pyStrip user_id).data.isEmpty = false :=
          (Bool.or_eq_false_iff.mp h1').2
        have hv : validate_description description = true := by
          have := Bool.eq_false_iff.mpr h2
          simpa using this
        have hid : hasImagesB files = true ∨ hasDescB description = true := by
          have h3' := Bool.eq_false_iff.mpr h3
          rcases Bool.and_eq_false_iff.mp h3' with h' | h'
          · left
            simpa using h'
          · right
            simpa using h'
        by_cases hi : hasImagesB files = true
        · rw [if_pos hi]
          rcases hst : imageStep (files.getD []) with out | imgs
          · obtain ⟨e, m, fl, fe, hout⟩ := imageStep_error_shape _ _ hst
            exact .inl ⟨e, m, fl, fe, by simp [hout]⟩
          · obtain ⟨hlen, herr⟩ := imageStep_ok_inv _ _ hst
            refine .inr ⟨hu, hv, hid, ?_, fun _ => herr⟩
            intro fs hfs
            subst hfs
            simpa using hlen
        · have hi' : hasImagesB files = false := by
            cases h : hasImagesB files
            · rfl
            · exact absurd h hi
          rw [if_neg hi]
          refine .inr ⟨hu, hv, hid, ?_, ?_⟩
          · intro fs hfs
            subst hfs
            simp [hasImagesB] at hi'
            simp [hi']
          · intro hc
            rw [hc] at hi'
            cases hi'

/-! ### Envelope observations -/

theorem successEnvelope_obs (f : PyDict) (u : String) (d : Option String) (n : Nat)
    (g : Nat → String) (t : String) (v : JVal) :
    pyGet (dictSet (successResp f u d n g t) "images_analyzed_count" v) "success" (.jbool false) = .jbool true ∧
    pyGet (dictSet (successResp f u d n g t) "images_analyzed_count" v) "success" .jnull = .jbool true ∧
    pyGet (dictSet (successResp f u d n g t) "images_analyzed_count" v) "detected_issue" .jnull =
      pyGet f "detected_issue" (.jstr "Unknown Issue") ∧
    pyGet (dictSet (successResp f u d n g t) "images_analyzed_count" v) "accuracy" .jnull =
      .jnum (normalizeConfidence f) ∧
    (dictSet (successResp f u d n g t) "images_analyzed_count" v).any (fun p => p.1 == "user_id") = true ∧
    (dictSet (successResp f u d n g t) "images_analyzed_count" v).any (fun p => p.1 == "request_id") = true ∧
    (dictSet (successResp f u d n g t) "images_analyzed_count" v).any (fun p => p.1 == "analysis_timestamp") = true ∧
    (dictSet (successResp f u d n g t) "images_analyzed_count" v).any (fun p => p.1 == "images_analyzed") = true ∧
    (dictSet (successResp f u d n g t) "images_analyzed_count" v).any (fun p => p.1 == "has_user_description") = true ∧
    (dictSet (successResp f u d n g t) "images_analyzed_count" v).any (fun p => p.1 == "success") = true :=
  ⟨rfl, rfl, rfl, rfl, rfl, rfl, rfl, rfl, rfl, rfl⟩

theorem errorEnvelope_obs (u m : String) (g : Nat → String) (v : JVal) :
    pyGet (dictSet (errorResp u m g) "images_analyzed_count" v) "success" (.jbool false) = .jbool false ∧
    pyGet (dictSet (errorResp u m g) "images_analyzed_count" v) "success" .jnull = .jbool false ∧
    pyGet (dictSet (errorResp u m g) "images_analyzed_count" v) "accuracy" .jnull = .jnum 0 ∧
    pyGet (dictSet (errorResp u m g) "images_analyzed_count" v) "request_id" .jnull = .jstr (g 1) ∧
    pyGet (dictSet (errorResp u m g) "images_analyzed_count" v) "error_message" .jnull =
      .jstr (if strHas (pyLower m) "rate_limit" = true then "Rate limit exceeded"
             else if strHas (pyLower m) "invalid_api_key" = true then "Authentication error"
             else m) ∧
    pyGet (dictSet (errorResp u m g) "images_analyzed_count" v) "detected_issue" .jnull =
      .jstr (if strHas (pyLower m) "rate_limit" = true then "Service Error"
             else if strHas (pyLower m) "invalid_api_key" = true then "Service Error"
             else "Analysis Failed") ∧
    (dictSet (errorResp u m g) "images_analyzed_count" v).any (fun p => p.1 == "analysis_timestamp") = false ∧
    (dictSet (errorResp u m g) "images_analyzed_count" v).any (fun p => p.1 == "images_analyzed") = false ∧
    (dictSet (errorResp u m g) "images_analyzed_count" v).any (fun p => p.1 == "has_user_description") = false ∧
    (dictSet (errorResp u m g) "images_analyzed_count" v).any (fun p => p.1 == "user_id") = true ∧
    (dictSet (errorResp u m g) "images_analyzed_count" v).any (fun p => p.1 == "request_id") = true ∧
    (dictSet (errorResp u m g) "images_analyzed_count" v).any (fun p => p.1 == "error_message") = true ∧
    (dictSet (errorResp u m g) "images_analyzed_count" v).any (fun p => p.1 == "success") = true := by
  by_cases hr : strHas (pyLower m) "rate_limit" = true
  · simp only [errorResp, if_pos hr]
    exact ⟨rfl, rfl, rfl, rfl, rfl, rfl, rfl, rfl, rfl, rfl, rfl, rfl, rfl⟩
  · by_cases ha : strHas (pyLower m) "invalid_api_key" = true
    · simp only [errorResp, if_neg hr, if_pos ha]
      exact ⟨rfl, rfl, rfl, rfl, rfl, rfl, rfl, rfl, rfl, rfl, rfl, rfl, rfl⟩
    · simp only [errorResp, if_neg hr, if_neg ha]
      exact ⟨rfl, rfl, rfl, rfl, rfl, rfl, rfl, rfl, rfl, rfl, rfl, rfl, rfl⟩

theorem finishPhase_exn (imgs : List (List Nat × String)) (u : String)
    (d : Option String) (msg : String) (g : Nat → String) (t : String) :
    finishPhase imgs u d (.exn msg) g t =
      ⟨500, .envelope (dictSet (errorResp u msg g) "images_analyzed_count" (.jnum imgs.length)), 1⟩ := by
  have h1 := (errorEnvelope_obs u msg g (.jnum imgs.length)).1
  simp [finishPhase, analyze_with_openai, h1, pyTruthy]

theorem finishPhase_reply_obj (imgs : List (List Nat × String)) (u : String)
    (d : Option String) (text : String) (fields : PyDict)
    (g : Nat → String) (t : String)
    (hx : extractJson text.data = .ok (.jobj fields)) :
    finishPhase imgs u d (.reply text) g t =
      ⟨200, .envelope (dictSet
        (successResp fields u (if hasDescB d then d else none) imgs.length g t)
        "images_analyzed_count" (.jnum imgs.length)), 1⟩ := by
  have h1 := (successEnvelope_obs fields u (if hasDescB d then d else none)
    imgs.length g t (.jnum imgs.length)).1
  simp [finishPhase, analyze_with_openai, hx, h1, pyTruthy]

theorem finishPhase_reply_err (imgs : List (List Nat × String)) (u : String)
    (d : Option String) (text : String) (m : String)
    (g : Nat → String) (t : String)
    (hx : extractJson text.data = .error m) :
    finishPhase imgs u d (.reply text) g t =
      ⟨500, .envelope (dictSet (errorResp u m g) "images_analyzed_count" (.jnum imgs.length)), 1⟩ := by
  have h1 := (errorEnvelope_obs u m g (.jnum imgs.length)).1
  simp [finishPhase, analyze_with_openai, hx, h1, pyTruthy]

/-! ### C3: success flag and status on the fallback path -/

/-- C3 (counterexample): for the reply `\x7bx\x7d` the remote call
succeeded (the outcome is a reply, not a transport or auth failure),
yet the handler answers 500 with `success=false` — so remote
transport/auth failures are not the only sources of
`success=false`/500. -/
theorem fallback_success_counterexample :
    (analyze_issues "u" (some "leak") none (.reply "\x7bx\x7d") (fun n => toString n) "t").status = 500 ∧
    envField (analyze_issues "u" (some "leak") none (.reply "\x7bx\x7d") (fun n => toString n) "t") "success" =
      some (.jbool false) ∧
    envField (analyze_issues "u" (some "leak") none (.reply "\x7bx\x7d") (fun n => toString n) "t") "detected_issue" =
      some (.jstr "Analysis Failed") :=
  ⟨rfl, rfl, rfl⟩

/-- C3 (amended): whenever the Normalizer substitutes the fallback
"Analysis Error" result (no brace match, whole reply unparsable), the
request is reported `success=true` with HTTP 200.  `success=false` with
HTTP 500 arises from remote transport/auth failures AND from a reply
whose `\x7b...\x7d` match fails to parse as JSON, since that parse
error propagates to the generic failure branch. -/
theorem fallback_success_amended (uid : String) (desc : Option String)
    (files : Option (List RawFile)) (uuid : Nat → String) (now : String)
    (h : reachesRemote uid desc files) :
    (∀ text : String, greedyBraceMatch text.data = none → jsonParse text.data = none →
       (analyze_issues uid desc files (.reply text) uuid now).status = 200 ∧
       envField (analyze_issues uid desc files (.reply text) uuid now) "success" = some (.jbool true) ∧
       envField (analyze_issues uid desc files (.reply text) uuid now) "detected_issue" =
         some (.jstr "Analysis Error")) ∧
    (∀ msg : String,
       (analyze_issues uid desc files (.exn msg) uuid now).status = 500 ∧
       envField (analyze_issues uid desc files (.exn msg) uuid now) "success" = some (.jbool false)) ∧
    (∀ (text : String) (m : List Char),
       greedyBraceMatch text.data = some m → jsonParse m = none →
       (analyze_issues uid desc files (.reply text) uuid now).status = 500 ∧
       envField (analyze_issues uid desc files (.reply text) uuid now) "success" = some (.jbool false)) := by
  refine ⟨?_, ?_, ?_⟩
  · intro text hm hp
    have hx : extractJson text.data = .ok (.jobj fallbackFields) := by
      simp [extractJson, hm, hp]
    rw [analyze_issues_reaches uid desc files (.reply text) uuid now h,
      finishPhase_reply_obj _ _ _ _ _ _ _ hx]
    have obs := successEnvelope_obs fallbackFields uid (if hasDescB desc then desc else none)
      (imagesOf files).length uuid now (.jnum (imagesOf files).length)
    exact ⟨rfl, by simp [envField, obs.2.1], by simp [envField, obs.2.2.1]; rfl⟩
  · intro msg
    rw [analyze_issues_reaches uid desc files (.exn msg) uuid now h,
      finishPhase_exn]
    have obs := errorEnvelope_obs uid msg uuid (.jnum (imagesOf files).length)
    exact ⟨rfl, by simp [envField, obs.2.1]⟩
  · intro text m hm hp
    have hx : extractJson text.data = .error jsonDecodeErrMsg := by
      simp [extractJson, hm, hp]
    rw [analyze_issues_reaches uid desc files (.reply text) uuid now h,
      finishPhase_reply_err _ _ _ _ _ _ _ hx]
    have obs := errorEnvelope_obs uid jsonDecodeErrMsg uuid (.jnum (imagesOf files).length)
    exact ⟨rfl, by simp [envField, obs.2.1]⟩

/-- Witness for the amended C3: the brace-free unparsable reply
`"hello"` yields HTTP 200 with `success=true` and the fallback issue
title. -/
theorem fallback_success_amended_witness :
    (analyze_issues "u" (some "leak") none (.reply "hello") (fun n => toString n) "t").status = 200 ∧
    envField (analyze_issues "u" (some "leak") none (.reply "hello") (fun n => toString n) "t") "success" =
      some (.jbool true) ∧
    envField (analyze_issues "u" (some "leak") none (.reply "hello") (fun n => toString n) "t") "detected_issue" =
      some (.jstr "Analysis Error") :=
  (fallback_success_amended "u" (some "leak") none (fun n => toString n) "t"
    ⟨rfl, by decide, rfl, fun hc => by simp [hasImagesB] at hc⟩).1 "hello" rfl rfl

/-! ### C4: degraded envelope on remote failure -/

/-- C4: every failure raised by the remote call yields, through the
validated handler, HTTP 500 and a degraded envelope with
`success=false`, accuracy 0, the issue/description/error-message fixed
by the coarse category substring-matched from the failure message, and
a freshly generated request id (`uuid 1`) distinct from the id
generated during the failed attempt (`uuid 0`). -/
theorem remote_failure_degraded (uid : String) (desc : Option String)
    (files : Option (List RawFile)) (msg : String) (uuid : Nat → String) (now : String)
    (h : reachesRemote uid desc files) (hfresh : uuid 1 ≠ uuid 0) :
    (analyze_issues uid desc files (.exn msg) uuid now).status = 500 ∧
    envField (analyze_issues uid desc files (.exn msg) uuid now) "success" = some (.jbool false) ∧
    envField (analyze_issues uid desc files (.exn msg) uuid now) "accuracy" = some (.jnum 0) ∧
    envField (analyze_issues uid desc files (.exn msg) uuid now) "request_id" = some (.jstr (uuid 1)) ∧
    uuid 1 ≠ uuid 0 ∧
    envField (analyze_issues uid desc files (.exn msg) uuid now) "error_message" =
      some (.jstr (if strHas (pyLower msg) "rate_limit" = true then "Rate limit exceeded"
                   else if strHas (pyLower msg) "invalid_api_key" = true then "Authentication error"
                   else msg)) ∧
    envField (analyze_issues uid desc files (.exn msg) uuid now) "detected_issue" =
      some (.jstr (if strHas (pyLower msg) "rate_limit" = true then "Service Error"
                   else if strHas (pyLower msg) "invalid_api_key" = true then "Service Error"
                   else "Analysis Failed")) := by
  rw [analyze_issues_reaches uid desc files (.exn msg) uuid now h, finishPhase_exn]
  have obs := errorEnvelope_obs uid msg uuid (.jnum (imagesOf files).length)
  refine ⟨rfl, ?_, ?_, ?_, hfresh, ?_, ?_⟩
  · simp [envField, obs.2.1]
  · simp [envField, obs.2.2.1]
  · simp [envField, obs.2.2.2.1]
  · simp [envField, obs.2.2.2.2.1]
  · simp [envField, obs.2.2.2.2.2.1]

/-- Witness for C4: a concrete rate-limited failure on a valid request. -/
theorem remote_failure_degraded_witness :
    (analyze_issues "u" (some "leak") none (.exn "rate_limit hit") (fun n => toString n) "t").status = 500 ∧
    envField (analyze_issues "u" (some "leak") none (.exn "rate_limit hit") (fun n => toString n) "t") "success" =
      some (.jbool false) ∧
    envField (analyze_issues "u" (some "leak") none (.exn "rate_limit hit") (fun n => toString n) "t") "accuracy" =
      some (.jnum 0) ∧
    envField (analyze_issues "u" (some "leak") none (.exn "rate_limit hit") (fun n => toString n) "t") "request_id" =
      some (.jstr ((fun n => toString n) 1)) ∧
    (fun n => toString n) 1 ≠ (fun n => toString n) 0 ∧
    envField (analyze_issues "u" (some "leak") none (.exn "rate_limit hit") (fun n => toString n) "t") "error_message" =
      some (.jstr (if strHas (pyLower "rate_limit hit") "rate_limit" = true then "Rate limit exceeded"
                   else if strHas (pyLower "rate_limit hit") "invalid_api_key" = true then "Authentication error"
                   else "rate_limit hit")) ∧
    envField (analyze_issues "u" (some "leak") none (.exn "rate_limit hit") (fun n => toString n) "t") "detected_issue" =
      some (.jstr (if strHas (pyLower "rate_limit hit") "rate_limit" = true then "Service Error"
                   else if strHas (pyLower "rate_limit hit") "invalid_api_key" = true then "Service Error"
                   else "Analysis Failed")) :=
  remote_failure_degraded "u" (some "leak") none "rate_limit hit" (fun n => toString n) "t"
    ⟨rfl, by decide, rfl, fun hc => by simp [hasImagesB] at hc⟩ (by decide)

/-! ### C5: any rejected file fails the whole request -/

/-- C5: when a request that passes the preceding validation carries a
file batch with at least one rejection, the handler answers 400 with the
aggregate `File processing error` detail listing every rejection, and
the remote client is never invoked. -/
theorem rejected_files_fail_request (uid : String) (desc : Option String)
    (fs : List RawFile) (outcome : RemoteOutcome) (uuid : Nat → String) (now : String)
    (h1 : (uid.data.isEmpty || (pyStrip uid).data.isEmpty) = false)
    (h2 : validate_description desc = true)
    (hne : fs ≠ []) (hlen : fs.length ≤ 10)
    (herr : (process_files fs).2 ≠ []) :
    analyze_issues uid desc (some fs) outcome uuid now =
      ⟨400, .detail "File processing error"
        ("Failed to process " ++ toString (process_files fs).2.length ++ " file(s)")
        none (process_files fs).2, 0⟩ ∧
    (analyze_issues uid desc (some fs) outcome uuid now).remote_calls = 0 := by
  have hi : hasImagesB (some fs) = true := by
    simp [hasImagesB, hne]
  have hie : (process_files fs).2.isEmpty = false := by
    simpa [List.isEmpty_iff] using herr
  have key : analyze_issues uid desc (some fs) outcome uuid now =
      ⟨400, .detail "File processing error"
        ("Failed to process " ++ toString (process_files fs).2.length ++ " file(s)")
        none (process_files fs).2, 0⟩ := by
    simp [analyze_issues, h1, h2, hi, imageStep,
      if_neg (by omega : ¬ fs.length > 10), hie]
  exact ⟨key, by rw [key]⟩

/-- Witness for C5: one empty upload rejects the whole request. -/
theorem rejected_files_fail_request_witness :
    analyze_issues "u" none (some [⟨some "a.png", none, []⟩]) (.reply "hello") (fun n => toString n) "t" =
      ⟨400, .detail "File processing error"
        ("Failed to process " ++ toString (process_files [⟨some "a.png", none, []⟩]).2.length ++ " file(s)")
        none (process_files [⟨some "a.png", none, []⟩]).2, 0⟩ ∧
    (analyze_issues "u" none (some [⟨some "a.png", none, []⟩]) (.reply "hello") (fun n => toString n) "t").remote_calls = 0 :=
  rejected_files_fail_request "u" none [⟨some "a.png", none, []⟩] (.reply "hello")
    (fun n => toString n) "t" rfl rfl (by decide) (by decide) (by decide)

/-! ### C6: validation short-circuits before any network call -/

/-- C6: a request failing any validation rule — blank user id after
trimming, description over 2000 characters, neither images nor a
non-blank description, or more than 10 images — is answered 400 and
the remote diagnostic call is never made. -/
theorem validation_short_circuit (uid : String) (desc : Option String)
    (files : Option (List RawFile)) (outcome : RemoteOutcome)
    (uuid : Nat → String) (now : String)
    (h : (pyStrip uid).data.isEmpty = true ∨
         (∃ d, desc = some d ∧ 2000 < d.length) ∨
         (hasImagesB files = false ∧ hasDescB desc = false) ∨
         (∃ fs, files = some fs ∧ 10 < fs.length)) :
    (analyze_issues uid desc files outcome uuid now).status = 400 ∧
    (analyze_issues uid desc files outcome uuid now).remote_calls = 0 := by
  rcases analyze_issues_cases uid desc files outcome uuid now with
    ⟨e, m, fl, fe, heq⟩ | ⟨hu, hv, hid, hlen, _⟩
  · rw [heq]
    exact ⟨rfl, rfl⟩
  · exfalso
    rcases h with h | ⟨d, hd, hlen'⟩ | ⟨hif, hdf⟩ | ⟨fs, hfs, hlen'⟩
    · rw [h] at hu
      cases hu
    · subst hd
      simp [validate_description] at hv
      omega
    · rcases hid with hi | hd2
      · rw [hif] at hi
        cases hi
      · rw [hdf] at hd2
        cases hd2
    · have := hlen fs hfs
      omega

/-- Witness for C6: a blank user id is rejected with 400 and no remote
call. -/
theorem validation_short_circuit_witness :
    (analyze_issues " " (some "leak") none (.reply "hello") (fun n => toString n) "t").status = 400 ∧
    (analyze_issues " " (some "leak") none (.reply "hello") (fun n => toString n) "t").remote_calls = 0 :=
  validation_short_circuit " " (some "leak") none (.reply "hello") (fun n => toString n) "t"
    (Or.inl (by decide))

/-! ### C9: request metadata in the envelopes -/

/-- C9 (counterexample): the degraded envelope produced for the remote
failure `"boom"` carries no `analysis_timestamp`, `images_analyzed` or
`has_user_description` entry, so not every envelope returned to the
caller contains all the request-metadata fields. -/
theorem envelope_metadata_counterexample :
    envHasKey (analyze_issues "u" (some "leak") none (.exn "boom") (fun n => toString n) "t") "analysis_timestamp" = false ∧
    envHasKey (analyze_issues "u" (some "leak") none (.exn "boom") (fun n => toString n) "t") "images_analyzed" = false ∧
    envHasKey (analyze_issues "u" (some "leak") none (.exn "boom") (fun n => toString n) "t") "has_user_description" = false ∧
    envField (analyze_issues "u" (some "leak") none (.exn "boom") (fun n => toString n) "t") "success" =
      some (.jbool false) :=
  ⟨rfl, rfl, rfl, rfl⟩

/-- C9 (amended): the success envelope carries all the request-metadata
fields (`user_id`, `request_id`, `analysis_timestamp`,
`images_analyzed`, `has_user_description`, `success`); the degraded
envelope carries `user_id`, `request_id`, `success` and
`error_message`, but no `analysis_timestamp`, `images_analyzed` or
`has_user_description`. -/
theorem envelope_metadata_amended (uid : String) (desc : Option String)
    (files : Option (List RawFile)) (uuid : Nat → String) (now : String)
    (h : reachesRemote uid desc files) :
    (∀ (text : String) (fields : PyDict), extractJson text.data = .ok (.jobj fields) →
       envHasKey (analyze_issues uid desc files (.reply text) uuid now) "user_id" = true ∧
       envHasKey (analyze_issues uid desc files (.reply text) uuid now) "request_id" = true ∧
       envHasKey (analyze_issues uid desc files (.reply text) uuid now) "analysis_timestamp" = true ∧
       envHasKey (analyze_issues uid desc files (.reply text) uuid now) "images_analyzed" = true ∧
       envHasKey (analyze_issues uid desc files (.reply text) uuid now) "has_user_description" = true ∧
       envHasKey (analyze_issues uid desc files (.reply text) uuid now) "success" = true) ∧
    (∀ msg : String,
       envHasKey (analyze_issues uid desc files (.exn msg) uuid now) "user_id" = true ∧
       envHasKey (analyze_issues uid desc files (.exn msg) uuid now) "request_id" = true ∧
       envHasKey (analyze_issues uid desc files (.exn msg) uuid now) "success" = true ∧
       envHasKey (analyze_issues uid desc files (.exn msg) uuid now) "error_message" = true ∧
       envHasKey (analyze_issues uid desc files (.exn msg) uuid now) "analysis_timestamp" = false ∧
       envHasKey (analyze_issues uid desc files (.exn msg) uuid now) "images_analyzed" = false ∧
       envHasKey (analyze_issues uid desc files (.exn msg) uuid now) "has_user_description" = false) := by
  constructor
  · intro text fields hx
    rw [analyze_issues_reaches uid desc files (.reply text) uuid now h,
      finishPhase_reply_obj _ _ _ _ _ _ _ hx]
    have obs := successEnvelope_obs fields uid (if hasDescB desc then desc else none)
      (imagesOf files).length uuid now (.jnum (imagesOf files).length)
    refine ⟨?_, ?_, ?_, ?_, ?_, ?_⟩ <;>
      simp [envHasKey, obs.2.2.2.2.1, obs.2.2.2.2.2.1, obs.2.2.2.2.2.2.1,
        obs.2.2.2.2.2.2.2.1, obs.2.2.2.2.2.2.2.2.1, obs.2.2.2.2.2.2.2.2.2]
  · intro msg
    rw [analyze_issues_reaches uid desc files (.exn msg) uuid now h, finishPhase_exn]
    have obs := errorEnvelope_obs uid msg uuid (.jnum (imagesOf files).length)
    refine ⟨?_, ?_, ?_, ?_, ?_, ?_, ?_⟩ <;>
      simp [envHasKey, obs.2.2.2.2.2.2.1, obs.2.2.2.2.2.2.2.1, obs.2.2.2.2.2.2.2.2.1,
        obs.2.2.2.2.2.2.2.2.2.1, obs.2.2.2.2.2.2.2.2.2.2.1,
        obs.2.2.2.2.2.2.2.2.2.2.2.1, obs.2.2.2.2.2.2.2.2.2.2.2.2]

/-- Witness for the amended C9: the parsed reply `\x7b\x7d` yields an
envelope with all six metadata fields. -/
theorem envelope_metadata_amended_witness :
    envHasKey (analyze_issues "u" (some "leak") none (.reply "\x7b\x7d") (fun n => toString n) "t") "user_id" = true ∧
    envHasKey (analyze_issues "u" (some "leak") none (.reply "\x7b\x7d") (fun n => toString n) "t") "request_id" = true ∧
    envHasKey (analyze_issues "u" (some "leak") none (.reply "\x7b\x7d") (fun n => toString n) "t") "analysis_timestamp" = true ∧
    envHasKey (analyze_issues "u" (some "leak") none (.reply "\x7b\x7d") (fun n => toString n) "t") "images_analyzed" = true ∧
    envHasKey (analyze_issues "u" (some "leak") none (.reply "\x7b\x7d") (fun n => toString n) "t") "has_user_description" = true ∧
    envHasKey (analyze_issues "u" (some "leak") none (.reply "\x7b\x7d") (fun n => toString n) "t") "success" = true :=
  (envelope_metadata_amended "u" (some "leak") none (fun n => toString n) "t"
    ⟨rfl, by decide, rfl, fun hc => by simp [hasImagesB] at hc⟩).1 "\x7b\x7d" [] rfl

end FixNow
